import Mathlib

/-
Verification of the metrics reconciliation and aggregation pipeline of the
postmarkfamily analytics dashboard.

The definitions below are shallow embeddings of the TypeScript source:
  - src/pages/api/refresh.ts   (stats handler: calculateRate, dailyMap merge,
    delivered clamp, totals reduce, summary rates)
  - src/unnamed/part_013       (hybrid stats handler: calculateRate variant,
    sends-keyed dailyMap merge, overview summary; and the Prisma-cached
    handler: fetch-failure fallback)
  - src/lib/postmark.ts        (PostmarkAPI.getStatsWithRetry)
  - src/lib/facebook-ads.ts    (FacebookAdsService.fetchData fallback and
    PostmarkMultiAPI.getCompleteStats combinedData)
  - src/lib/thrivecart.ts      (ThriveCartService.parseEvent, calculateStats,
    fetchData fallback)
  - src/pages/dashboard.tsx    (getUnifiedMetrics roas)

JavaScript numbers are modelled as Int where the code only adds, subtracts
and compares counters, and as Rat where the code divides.  JS
Math.round(x) rounds half toward positive infinity, which is
Int.floor (x + 1/2) on rationals.  A JS Map is modelled as an association
list with insertion-order semantics: set replaces in place when the key is
present and appends otherwise.
-/

/-- JS Math.round: round half toward positive infinity. -/
def jsRound (x : ℚ) : ℤ := ⌊x + 1 / 2⌋

/-- One row of the dailyMap in the stats handlers: a calendar date plus the
seven canonical counters. -/
structure DailyRow where
  date : String
  sent : ℤ
  delivered : ℤ
  opened : ℤ
  clicked : ℤ
  bounced : ℤ
  spam : ℤ
  unsubscribed : ℤ
deriving DecidableEq

/-- The fresh all-zero row created by the merge for a date (the object
literal with every counter 0 used in the handlers). -/
def emptyRow (d : String) : DailyRow :=
  ⟨d, 0, 0, 0, 0, 0, 0, 0⟩

/-- A JS Map from date strings to rows, as an insertion-ordered
association list. -/
def JsMap : Type := List (String × DailyRow)

/-- JS Map.get. -/
def mapGet : JsMap → String → Option DailyRow
  | [], _ => none
  | p :: rest, k => if p.1 = k then some p.2 else mapGet rest k

/-- JS Map.set: replace in place when the key exists, append otherwise. -/
def mapSet : JsMap → String → DailyRow → JsMap
  | [], k, v => [(k, v)]
  | p :: rest, k, v => if p.1 = k then (k, v) :: rest else p :: mapSet rest k v

/-- The counter field written by one of the follow-up merge passes (bounce,
spam, open, click data in refresh.ts). -/
inductive CtrField where
  | bounced
  | spamCounter
  | opened
  | clicked
deriving DecidableEq

/-- Write one counter field of a row (existing.bounced = v, etc.). -/
def setField : CtrField → ℤ → DailyRow → DailyRow
  | .bounced, v, r => { r with bounced := v }
  | .spamCounter, v, r => { r with spam := v }
  | .opened, v, r => { r with opened := v }
  | .clicked, v, r => { r with clicked := v }

/-- One step of a follow-up pass in refresh.ts: read the existing row (or
the all-zero default), overwrite one field, and set it back. -/
def updStep (f : CtrField) (m : JsMap) (day : String × ℤ) : JsMap :=
  mapSet m day.1 (setField f day.2 ((mapGet m day.1).getD (emptyRow day.1)))

/-- A follow-up merge pass of refresh.ts: forEach over one source series,
updating that source's field of the row keyed by the date. -/
def updatePass (f : CtrField) (days : List (String × ℤ)) (m : JsMap) : JsMap :=
  days.foldl (updStep f) m

/-- One day record of the sends endpoint (day.Date, day.Sent). -/
structure SentDay where
  date : String
  sent : ℤ
deriving DecidableEq

/-- One day record of the bounces endpoint. -/
structure BounceDay where
  date : String
  hardBounce : ℤ
  softBounce : ℤ
  transient : ℤ
  smtpApiError : ℤ
deriving DecidableEq

/-- One day record of the spam endpoint. -/
structure SpamDay where
  date : String
  spamComplaint : ℤ
deriving DecidableEq

/-- One day record of the opens endpoint. -/
structure OpenDay where
  date : String
  opens : ℤ
deriving DecidableEq

/-- One day record of the clicks endpoint. -/
structure ClickDay where
  date : String
  clicks : ℤ
deriving DecidableEq

/-- The initial pass of the merge in refresh.ts: dailyMap.set(day.Date,
a fresh row with only sent filled in) for every sends record. -/
def sentStep (m : JsMap) (day : SentDay) : JsMap :=
  mapSet m day.date { emptyRow day.date with sent := day.sent }

/-- forEach over the sends series. -/
def sentPass (days : List SentDay) (m : JsMap) : JsMap :=
  days.foldl sentStep m

/-- The bounced counter extracted from a bounces record in refresh.ts:
HardBounce + SoftBounce + Transient + SMTPApiError. -/
def bounceVal (b : BounceDay) : ℤ :=
  b.hardBounce + b.softBounce + b.transient + b.smtpApiError

namespace Refresh

/-- calculateRate from src/pages/api/refresh.ts:
denominator greater than 0 gives Math.round(n / d * 100 * 100) / 100,
otherwise 0. -/
def calculateRate (numerator denominator : ℚ) : ℚ :=
  if 0 < denominator then (jsRound (numerator / denominator * 100 * 100) : ℚ) / 100 else 0

/-- The five merge passes of refresh.ts in source order: sends initialises
the rows, then bounces, spam, opens and clicks each fill their own
counter. -/
def mergePasses (sends : List SentDay) (bounces : List BounceDay)
    (spams : List SpamDay) (opens : List OpenDay) (clicks : List ClickDay) : JsMap :=
  updatePass .clicked (clicks.map fun c => (c.date, c.clicks))
    (updatePass .opened (opens.map fun o => (o.date, o.opens))
      (updatePass .spamCounter (spams.map fun s => (s.date, s.spamComplaint))
        (updatePass .bounced (bounces.map fun b => (b.date, bounceVal b))
          (sentPass sends []))))

/-- The delivered computation of refresh.ts: delivered = Math.max(0, sent - bounced). -/
def deliveredStep (r : DailyRow) : DailyRow :=
  { r with delivered := max 0 (r.sent - r.bounced) }

/-- dailyMap.forEach((day) => day.delivered = Math.max(0, day.sent - day.bounced)). -/
def deliveredPass (m : JsMap) : JsMap :=
  m.map fun p => (p.1, deliveredStep p.2)

/-- The full daily merge of refresh.ts: five passes then the delivered clamp
(the suppressions-based unsubscribed pass adds no dates and touches no other
counter, so it is omitted from the daily model). -/
def mergeDaily (sends : List SentDay) (bounces : List BounceDay)
    (spams : List SpamDay) (opens : List OpenDay) (clicks : List ClickDay) : JsMap :=
  deliveredPass (mergePasses sends bounces spams opens clicks)

/-- Running totals accumulated by the reduce over the daily rows in
refresh.ts, together with the summary rates filled in afterwards. -/
structure Summary where
  sent : ℤ
  delivered : ℤ
  opened : ℤ
  clicked : ℤ
  bounced : ℤ
  spam : ℤ
  unsubscribed : ℤ
  openRate : ℚ
  clickRate : ℚ
  bounceRate : ℚ
deriving DecidableEq

/-- The reduce over daily rows: every counter summed, starting from zero
except unsubscribed which starts from the suppressions count. -/
def sumTotals (daily : List DailyRow) (totalUnsubscribed : ℤ) : Summary :=
  daily.foldl
    (fun acc day =>
      { acc with
        sent := acc.sent + day.sent
        delivered := acc.delivered + day.delivered
        opened := acc.opened + day.opened
        clicked := acc.clicked + day.clicked
        bounced := acc.bounced + day.bounced
        spam := acc.spam + day.spam
        unsubscribed := acc.unsubscribed + day.unsubscribed })
    ⟨0, 0, 0, 0, 0, 0, totalUnsubscribed, 0, 0, 0⟩

/-- The summary object of refresh.ts: the totals plus
openRate = calculateRate(opened, delivered),
clickRate = calculateRate(clicked, delivered),
bounceRate = calculateRate(bounced, sent). -/
def mkSummary (t : Summary) : Summary :=
  { t with
    openRate := calculateRate (t.opened : ℚ) (t.delivered : ℚ)
    clickRate := calculateRate (t.clicked : ℚ) (t.delivered : ℚ)
    bounceRate := calculateRate (t.bounced : ℚ) (t.sent : ℚ) }

/-- The summary computed by refresh.ts from the merged daily map. -/
def summaryOfMerge (sends : List SentDay) (bounces : List BounceDay)
    (spams : List SpamDay) (opens : List OpenDay) (clicks : List ClickDay)
    (totalUnsubscribed : ℤ) : Summary :=
  mkSummary (sumTotals ((mergeDaily sends bounces spams opens clicks).map Prod.snd) totalUnsubscribed)

end Refresh

namespace Api013

/-- calculateRate from the hybrid stats handler (src/unnamed/part_013):
0 when the denominator is exactly 0, otherwise
Math.round(n / d * 10000) / 100. -/
def calculateRate (numerator denominator : ℚ) : ℚ :=
  if denominator = 0 then 0 else (jsRound (numerator / denominator * 10000) : ℚ) / 100

end Api013

/-- One day record of the opens endpoint as read by the hybrid handler in
part_013 (day.Unique and day.Opens). -/
structure OpenDay013 where
  date : String
  uniqueOpens : ℤ
  opens : ℤ
deriving DecidableEq

/-- One day record of the clicks endpoint as read by the hybrid handler. -/
structure ClickDay013 where
  date : String
  uniqueClicks : ℤ
  clicks : ℤ
deriving DecidableEq

/-- One day record of the bounces endpoint as read by the hybrid handler
(it ignores SMTPApiError). -/
structure BounceDay013 where
  date : String
  hardBounce : ℤ
  softBounce : ℤ
  transient : ℤ
deriving DecidableEq

/-- The value day.Unique || day.Opens || 0 of the hybrid handler: JS picks
the unique count when it is truthy (nonzero), else the total count. -/
def uniqueOrTotal (uniqueCount total : ℤ) : ℤ :=
  if uniqueCount ≠ 0 then uniqueCount else total

/-- A follow-up pass of the hybrid handler in part_013: it updates the row
only when the date is already present (const existing = dailyMap.get(...);
if (existing) existing.field = v) and creates nothing. -/
def updIfPresent (f : CtrField) (days : List (String × ℤ)) (m : JsMap) : JsMap :=
  days.foldl
    (fun m day =>
      match mapGet m day.1 with
      | some r => mapSet m day.1 (setField f day.2 r)
      | none => m)
    m

/-- The daily merge of the hybrid stats handler (part_013): rows are
created only from the sends series; opens, clicks and bounces update
existing rows in that order; then the delivered clamp runs. -/
def mergeDaily013 (sends : List SentDay) (opens : List OpenDay013)
    (clicks : List ClickDay013) (bounces : List BounceDay013) : JsMap :=
  Refresh.deliveredPass
    (updIfPresent .bounced (bounces.map fun b => (b.date, b.hardBounce + b.softBounce + b.transient))
      (updIfPresent .clicked (clicks.map fun c => (c.date, uniqueOrTotal c.uniqueClicks c.clicks))
        (updIfPresent .opened (opens.map fun o => (o.date, uniqueOrTotal o.uniqueOpens o.opens))
          (sentPass sends []))))

/-- The overview response of the /stats/outbound endpoint as used by the
hybrid handler's summary. -/
structure Overview where
  sent : ℤ
  bounced : ℤ
  uniqueOpens : ℤ
  uniqueLinksClicked : ℤ
  spamComplaints : ℤ
deriving DecidableEq

/-- The summary object built by the hybrid handler (part_013) from the
overview data: delivered = max(0, Sent - Bounced), and every rate is
computed against Sent. -/
def summary013 (ov : Overview) : Refresh.Summary :=
  { sent := ov.sent
    delivered := max 0 (ov.sent - ov.bounced)
    opened := ov.uniqueOpens
    clicked := ov.uniqueLinksClicked
    bounced := ov.bounced
    spam := ov.spamComplaints
    unsubscribed := 0
    openRate := Api013.calculateRate (ov.uniqueOpens : ℚ) (ov.sent : ℚ)
    clickRate := Api013.calculateRate (ov.uniqueLinksClicked : ℚ) (ov.sent : ℚ)
    bounceRate := Api013.calculateRate (ov.bounced : ℚ) (ov.sent : ℚ) }

/-- One merge pass of the refresh.ts handler, as data, so that the merge
can be run with the passes in any order (claim C5). -/
inductive Pass where
  | sendsP (days : List SentDay)
  | bounceP (days : List BounceDay)
  | spamP (days : List SpamDay)
  | openP (days : List OpenDay)
  | clickP (days : List ClickDay)

/-- The date-value series a pass iterates over, with the source-specific
extraction applied. -/
def passDays : Pass → List (String × ℤ)
  | .sendsP ds => ds.map fun s => (s.date, s.sent)
  | .bounceP ds => ds.map fun b => (b.date, bounceVal b)
  | .spamP ds => ds.map fun s => (s.date, s.spamComplaint)
  | .openP ds => ds.map fun o => (o.date, o.opens)
  | .clickP ds => ds.map fun c => (c.date, c.clicks)

/-- The counter field a follow-up pass writes; none for the sends pass,
which overwrites whole rows. -/
def updFieldOf : Pass → Option CtrField
  | .sendsP _ => none
  | .bounceP _ => some .bounced
  | .spamP _ => some .spamCounter
  | .openP _ => some .opened
  | .clickP _ => some .clicked

/-- Run one merge pass of refresh.ts on the daily map. -/
def applyPass (m : JsMap) : Pass → JsMap
  | .sendsP ds => sentPass ds m
  | .bounceP ds => updatePass .bounced (ds.map fun b => (b.date, bounceVal b)) m
  | .spamP ds => updatePass .spamCounter (ds.map fun s => (s.date, s.spamComplaint)) m
  | .openP ds => updatePass .opened (ds.map fun o => (o.date, o.opens)) m
  | .clickP ds => updatePass .clicked (ds.map fun c => (c.date, c.clicks)) m

/-- The refresh.ts merge run with its passes in a caller-chosen order. -/
def mergeOrder (l : List Pass) : JsMap :=
  l.foldl applyPass []

/-- The last value a series assigns to a date (later forEach iterations
overwrite earlier ones); none when the date never occurs.  Derived form
used to state the merge characterisation. -/
def lastVal : List (String × ℤ) → String → Option ℤ
  | [], _ => none
  | day :: rest, d =>
    match lastVal rest d with
    | some v => some v
    | none => if day.1 = d then some day.2 else none

/-- The row the sends pass leaves for a date: a fresh row with the last
sent value; none when the date never occurs in the sends series. -/
def lastSent : List SentDay → String → Option ℤ
  | [], _ => none
  | day :: rest, d =>
    match lastSent rest d with
    | some v => some v
    | none => if day.date = d then some day.sent else none

namespace Postmark

/-- Retry configuration of PostmarkAPI (src/lib/postmark.ts). -/
def maxRetries : ℕ := 3

/-- Base backoff in milliseconds of PostmarkAPI. -/
def baseBackoffMs : ℕ := 1000

/-- An error thrown by getStats, carrying its message string. -/
structure ApiError where
  message : String
deriving DecidableEq

/-- Does the character list s start with sub. -/
def startsWith : List Char → List Char → Bool
  | _, [] => true
  | [], _ :: _ => false
  | c :: s, d :: sub => c = d && startsWith s sub

/-- Does the character list s contain sub as a contiguous run. -/
def containsSeq : List Char → List Char → Bool
  | [], sub => sub.isEmpty
  | c :: t, sub => startsWith (c :: t) sub || containsSeq t sub

/-- JS String.prototype.includes. -/
def includesStr (s sub : String) : Bool :=
  containsSeq s.toList sub.toList

/-- The retry classifier of getStatsWithRetry:
error.message.includes('Rate limit') || error.message.includes('5'). -/
def isRetryableErr (e : ApiError) : Bool :=
  includesStr e.message "Rate limit" || includesStr e.message "5"

/-- One Days entry of a Postmark stats response. -/
structure PMDay where
  date : String
  sent : ℤ
  delivered : ℤ
  opened : ℤ
  clicked : ℤ
  bounced : ℤ
  spamComplaints : ℤ
  unsubscribed : ℤ
deriving DecidableEq

/-- A PostmarkStatsResponse. -/
structure StatsResponse where
  days : List PMDay
deriving DecidableEq

/-- getStatsWithRetry, with the attempts of getStats abstracted as a map
from the retry counter to that attempt's outcome.  The result is paired
with the list of backoff delays slept.  The remaining argument equals
maxRetries - retries, making the recursion structural; the guard
remaining > 0 is exactly the source's retries < maxRetries. -/
def getStatsRetryGo (op : ℕ → Except ApiError StatsResponse) :
    ℕ → ℕ → Except ApiError StatsResponse × List ℕ
  | retries, remaining =>
    match op retries with
    | .ok v => (.ok v, [])
    | .error e =>
      match remaining with
      | 0 => (.error e, [])
      | r + 1 =>
        if isRetryableErr e then
          let res := getStatsRetryGo op (retries + 1) r
          (res.1, baseBackoffMs * 2 ^ retries :: res.2)
        else (.error e, [])

/-- getStatsWithRetry entry point (callers pass retries = 0). -/
def getStatsWithRetry (op : ℕ → Except ApiError StatsResponse) (retries : ℕ) :
    Except ApiError StatsResponse × List ℕ :=
  getStatsRetryGo op retries (maxRetries - retries)

end Postmark

namespace MultiApi

/-- The combined stats object shape of PostmarkMultiAPI.getCompleteStats. -/
structure PMStats where
  sent : ℤ
  delivered : ℤ
  opened : ℤ
  clicked : ℤ
  bounced : ℤ
  spamComplaints : ℤ
  unsubscribed : ℤ
deriving DecidableEq

/-- The per-endpoint totals getCompleteStats reads (sends, bounces, spam,
opens, clicks endpoints). -/
structure EndpointTotals where
  sent : ℤ
  hardBounce : ℤ
  softBounce : ℤ
  transient : ℤ
  opens : ℤ
  clicks : ℤ
  spamComplaint : ℤ
deriving DecidableEq

/-- combinedData of PostmarkMultiAPI.getCompleteStats
(src/lib/facebook-ads.ts, second module): note Delivered is
Sent - HardBounce - SoftBounce - Transient with no clamp. -/
def combinedStats (e : EndpointTotals) : PMStats :=
  { sent := e.sent
    delivered := e.sent - e.hardBounce - e.softBounce - e.transient
    opened := e.opens
    clicked := e.clicks
    bounced := e.hardBounce + e.softBounce + e.transient
    spamComplaints := e.spamComplaint
    unsubscribed := 0 }

end MultiApi

namespace ThriveCart

/-- The four transaction event kinds of ThriveCart. -/
inductive TCEvent where
  | purchase
  | upsellaccept
  | abandon
  | refund
deriving DecidableEq

/-- JS String.prototype.toLowerCase, character by character (the event
names are ASCII). -/
def strLower (s : String) : String :=
  ⟨s.data.map Char.toLower⟩

/-- JS String.prototype.trim: strip leading and trailing whitespace. -/
def strTrim (s : String) : String :=
  ⟨((s.data.dropWhile Char.isWhitespace).reverse.dropWhile Char.isWhitespace).reverse⟩

/-- ThriveCartService.parseEvent: lowercase and trim, match the four known
kinds, and fall back to purchase for anything else (identical in
src/lib/thrivecart.ts and src/unnamed/part_009). -/
def parseEvent (event : String) : TCEvent :=
  let normalized := strTrim (strLower event)
  if normalized = "purchase" then .purchase
  else if normalized = "upsellaccept" then .upsellaccept
  else if normalized = "abandon" then .abandon
  else if normalized = "refund" then .refund
  else .purchase

/-- One parsed ThriveCart transaction. -/
structure TCTransaction where
  event : TCEvent
  itemName : String
  itemPlanName : String
  date : String
  checkboxConfirmation : Bool
  price : ℚ
deriving DecidableEq

/-- The scalar outputs of ThriveCartService.calculateStats (the
presentation-only dailyStats, productStats, recentTransactions, timeRange
and lastUpdated fields are out of scope). -/
structure TCStatsCore where
  totalRevenue : ℚ
  totalTransactions : ℕ
  totalPurchases : ℕ
  totalUpsells : ℕ
  totalAbandoned : ℕ
  conversionRate : ℚ
  upsellConversionRate : ℚ
  averageOrderValue : ℚ
deriving DecidableEq

/-- ThriveCartService.calculateStats: counts by event kind, revenue over
purchases and upsells, and the derived rates.  conversionRate is
(purchases / (purchases + abandoned)) * 100 when abandoned > 0 and 100
otherwise, with no rounding. -/
def calculateStats (transactions : List TCTransaction) : TCStatsCore :=
  let purchases := transactions.filter fun t => t.event = .purchase
  let upsells := transactions.filter fun t => t.event = .upsellaccept
  let abandoned := transactions.filter fun t => t.event = .abandon
  let totalRevenue :=
    ((transactions.filter fun t => t.event = .purchase ∨ t.event = .upsellaccept).map
      (fun t => t.price)).sum
  let totalTransactions := purchases.length + upsells.length
  let totalPurchases := purchases.length
  let totalUpsells := upsells.length
  let totalAbandoned := abandoned.length
  { totalRevenue := totalRevenue
    totalTransactions := totalTransactions
    totalPurchases := totalPurchases
    totalUpsells := totalUpsells
    totalAbandoned := totalAbandoned
    conversionRate :=
      if 0 < totalAbandoned then
        ((totalPurchases : ℚ) / ((totalPurchases : ℚ) + (totalAbandoned : ℚ))) * 100
      else 100
    upsellConversionRate :=
      if 0 < totalPurchases then ((totalUpsells : ℚ) / (totalPurchases : ℚ)) * 100 else 0
    averageOrderValue :=
      if 0 < totalTransactions then totalRevenue / (totalTransactions : ℚ) else 0 }

/-- ThriveCartService.getEmptyStats: every scalar zero (including
conversionRate, unlike calculateStats on an empty list). -/
def getEmptyStatsCore : TCStatsCore :=
  ⟨0, 0, 0, 0, 0, 0, 0, 0⟩

/-- CACHE_DURATION of ThriveCartService: 5 minutes in milliseconds. -/
def CACHE_DURATION : ℤ := 5 * 60 * 1000

/-- The value returned by ThriveCartService.fetchData, with the network
fetch + parse + calculateStats abstracted as an Except outcome: a fresh
cache entry short-circuits, otherwise a successful fetch is returned and a
failed fetch falls back to the cached value when one exists and to
getEmptyStats when none does. -/
def fetchDataResult (forceRefresh : Bool) (now : ℤ)
    (cached : Option (TCStatsCore × ℤ)) (fetched : Except Unit TCStatsCore) : TCStatsCore :=
  match cached with
  | some c =>
    if forceRefresh = false ∧ now - c.2 < CACHE_DURATION then c.1
    else
      match fetched with
      | .ok stats => stats
      | .error _ => c.1
  | none =>
    match fetched with
    | .ok stats => stats
    | .error _ => getEmptyStatsCore

end ThriveCart

namespace FacebookAds

/-- The scalar totals of FacebookAdsService.calculateStats (dailyStats,
campaignStats, timeRange and lastUpdated are out of scope). -/
structure FBStatsCore where
  totalSpend : ℚ
  totalClicks : ℤ
  totalImpressions : ℤ
  totalLeads : ℤ
  totalPurchases : ℤ
  totalPurchaseValue : ℚ
  averageCtr : ℚ
  averageCpc : ℚ
  averageCostPerLead : ℚ
  averageCostPerPurchase : ℚ
deriving DecidableEq

/-- FacebookAdsService.getEmptyStats: every scalar zero. -/
def getEmptyStatsCore : FBStatsCore :=
  ⟨0, 0, 0, 0, 0, 0, 0, 0, 0, 0⟩

/-- CACHE_DURATION of FacebookAdsService: 5 minutes in milliseconds. -/
def CACHE_DURATION : ℤ := 5 * 60 * 1000

/-- The value returned by FacebookAdsService.fetchData, with the ad-account
lookup + insights fetch + calculateStats abstracted as an Except outcome;
same fallback structure as the ThriveCart service. -/
def fetchDataResult (forceRefresh : Bool) (now : ℤ)
    (cached : Option (FBStatsCore × ℤ)) (fetched : Except Unit FBStatsCore) : FBStatsCore :=
  match cached with
  | some c =>
    if forceRefresh = false ∧ now - c.2 < CACHE_DURATION then c.1
    else
      match fetched with
      | .ok stats => stats
      | .error _ => c.1
  | none =>
    match fetched with
    | .ok stats => stats
    | .error _ => getEmptyStatsCore

end FacebookAds

namespace CachedHandler

/-- What the Prisma-cached stats handler (part_013, second module) does
when the fresh Postmark fetch fails. -/
inductive FallbackOutcome where
  | rateLimited429
  | error500
  | serveCached
deriving DecidableEq

/-- The catch branch of that handler: a message containing 'Rate limit'
returns 429 immediately; otherwise an empty cache returns 500 and a
non-empty cache falls through to serve the cached rows. -/
def onFetchFailure (cachedCount : ℕ) (msg : String) : FallbackOutcome :=
  if Postmark.includesStr msg "Rate limit" then .rateLimited429
  else if cachedCount = 0 then .error500
  else .serveCached

end CachedHandler

namespace Dashboard

/-- The value facebook?.totalSpend || 0 read by getUnifiedMetrics. -/
def spendOf (facebook : Option FacebookAds.FBStatsCore) : ℚ :=
  match facebook with
  | some f => f.totalSpend
  | none => 0

/-- The value thrivecart?.totalRevenue || 0 read by getUnifiedMetrics. -/
def revenueOf (thrivecart : Option ThriveCart.TCStatsCore) : ℚ :=
  match thrivecart with
  | some t => t.totalRevenue
  | none => 0

/-- The roas calculated metric of getUnifiedMetrics in
src/pages/dashboard.tsx:
(facebook?.totalSpend || 0) > 0 ? (thrivecart?.totalRevenue || 0) / (facebook?.totalSpend || 0) : 0. -/
def unifiedRoas (facebook : Option FacebookAds.FBStatsCore)
    (thrivecart : Option ThriveCart.TCStatsCore) : ℚ :=
  if 0 < spendOf facebook then revenueOf thrivecart / spendOf facebook else 0

end Dashboard

/-- Map.get after Map.set: the set key reads back the set value, every
other key is unchanged. -/
theorem mapGet_mapSet (m : JsMap) (k : String) (v : DailyRow) (k2 : String) :
    mapGet (mapSet m k v) k2 = if k = k2 then some v else mapGet m k2 := by
  induction m with
  | nil => simp [mapSet, mapGet]
  | cons p rest ih =>
    simp only [mapSet]
    by_cases hp : p.1 = k
    · rw [if_pos hp]
      by_cases h : k = k2
      · subst h
        simp [mapGet]
      · have hp2 : ¬ p.1 = k2 := by
          rw [hp]
          exact h
        simp [mapGet, h, hp2]
    · rw [if_neg hp]
      by_cases h2 : p.1 = k2
      · have hk : ¬ k = k2 := fun hc => hp (h2.trans hc.symm)
        simp [mapGet, h2, hk]
      · simp [mapGet, h2, ih]

/-- Writing the same counter twice keeps only the last write. -/
theorem setField_setField_same (f : CtrField) (a b : ℤ) (r : DailyRow) :
    setField f a (setField f b r) = setField f a r := by
  cases f <;> rfl

/-- Writes to two different counters commute. -/
theorem setField_comm {f g : CtrField} (h : f ≠ g) (a b : ℤ) (r : DailyRow) :
    setField f a (setField g b r) = setField g b (setField f a r) := by
  cases f <;> cases g <;> first | rfl | exact absurd rfl h

/-- A counter write keeps the date. -/
theorem setField_date (f : CtrField) (v : ℤ) (r : DailyRow) :
    (setField f v r).date = r.date := by
  cases f <;> rfl

/-- What a follow-up pass of refresh.ts leaves at each key: the last value
of the series for that date written into the pass's field of the prior row
(or of the all-zero default), all other keys untouched. -/
theorem updatePass_get (f : CtrField) (days : List (String × ℤ)) (m : JsMap) (d : String) :
    mapGet (updatePass f days m) d =
      match lastVal days d with
      | some v => some (setField f v ((mapGet m d).getD (emptyRow d)))
      | none => mapGet m d := by
  induction days generalizing m with
  | nil => rfl
  | cons day rest ih =>
    have step : updatePass f (day :: rest) m = updatePass f rest (updStep f m day) := rfl
    rw [step, ih]
    have hget : mapGet (updStep f m day) d =
        if day.1 = d then
          some (setField f day.2 ((mapGet m d).getD (emptyRow d)))
        else mapGet m d := by
      unfold updStep
      rw [mapGet_mapSet]
      by_cases hd : day.1 = d
      · subst hd
        simp
      · simp [hd]
    rcases hrest : lastVal rest d with _ | v
    · by_cases hd : day.1 = d
      · simp [lastVal, hrest, hd, hget]
      · simp [lastVal, hrest, hd, hget]
    · by_cases hd : day.1 = d
      · simp [lastVal, hrest, hget, hd, setField_setField_same]
      · simp [lastVal, hrest, hget, hd]

/-- What the sends pass of refresh.ts leaves at each key: a fresh row with
the last sent value of the series for that date, all other keys
untouched. -/
theorem sentPass_get (days : List SentDay) (m : JsMap) (d : String) :
    mapGet (sentPass days m) d =
      match lastSent days d with
      | some v => some { emptyRow d with sent := v }
      | none => mapGet m d := by
  induction days generalizing m with
  | nil => rfl
  | cons day rest ih =>
    have step : sentPass (day :: rest) m = sentPass rest (sentStep m day) := rfl
    rw [step, ih]
    have hget : mapGet (sentStep m day) d =
        if day.date = d then some { emptyRow d with sent := day.sent } else mapGet m d := by
      unfold sentStep
      rw [mapGet_mapSet]
      by_cases hd : day.date = d
      · subst hd
        simp
      · simp [hd]
    rcases hrest : lastSent rest d with _ | v
    · by_cases hd : day.date = d
      · simp [lastSent, hrest, hd, hget]
      · simp [lastSent, hrest, hd, hget]
    · by_cases hd : day.date = d
      · simp [lastSent, hrest, hget, hd]
      · simp [lastSent, hrest, hget, hd]

/-- The delivered clamp rewrites every row in place. -/
theorem deliveredPass_get (m : JsMap) (d : String) :
    mapGet (Refresh.deliveredPass m) d = (mapGet m d).map Refresh.deliveredStep := by
  induction m with
  | nil => rfl
  | cons p rest ih =>
    by_cases hd : p.1 = d <;> simp [Refresh.deliveredPass, mapGet, hd] <;>
      simpa [Refresh.deliveredPass] using ih

/-- A series assigns no value to a date exactly when the date does not
occur in it. -/
theorem lastVal_eq_none_iff (days : List (String × ℤ)) (d : String) :
    lastVal days d = none ↔ d ∉ days.map Prod.fst := by
  induction days with
  | nil => simp [lastVal]
  | cons day rest ih =>
    rcases hrest : lastVal rest d with _ | v
    · by_cases hd : day.1 = d <;> simp [lastVal, hrest, hd, ih.mp hrest] <;> tauto
    · have hmem : d ∈ rest.map Prod.fst := by
        by_contra hc
        have h0 := ih.mpr hc
        rw [hrest] at h0
        exact Option.noConfusion h0
      simp [lastVal, hrest, hmem]

/-- The sends series assigns no row to a date exactly when the date does
not occur in it. -/
theorem lastSent_eq_none_iff (days : List SentDay) (d : String) :
    lastSent days d = none ↔ d ∉ days.map SentDay.date := by
  induction days with
  | nil => simp [lastSent]
  | cons day rest ih =>
    rcases hrest : lastSent rest d with _ | v
    · by_cases hd : day.date = d <;> simp [lastSent, hrest, hd, ih.mp hrest] <;> tauto
    · have hmem : d ∈ rest.map SentDay.date := by
        by_contra hc
        have h0 := ih.mpr hc
        rw [hrest] at h0
        exact Option.noConfusion h0
      simp [lastSent, hrest, hmem]

/-- What a follow-up pass of the hybrid handler (part_013) leaves at each
key: existing rows get the last value of the series written into the
pass's field, missing keys stay missing. -/
theorem updIfPresent_get (f : CtrField) (days : List (String × ℤ)) (m : JsMap) (d : String) :
    mapGet (updIfPresent f days m) d =
      (mapGet m d).map fun r =>
        match lastVal days d with
        | some v => setField f v r
        | none => r := by
  induction days generalizing m with
  | nil =>
    simp only [updIfPresent, List.foldl_nil, lastVal]
    rcases mapGet m d with _ | r <;> rfl
  | cons day rest ih =>
    have step : updIfPresent f (day :: rest) m =
        updIfPresent f rest
          (match mapGet m day.1 with
           | some r => mapSet m day.1 (setField f day.2 r)
           | none => m) := rfl
    rw [step, ih]
    rcases hm : mapGet m day.1 with _ | r0
    · simp only
      rcases hrest : lastVal rest d with _ | v
      · by_cases hd : day.1 = d
        · subst hd
          simp [lastVal, hrest, hm]
        · simp [lastVal, hrest, hd]
      · simp [lastVal, hrest]
    · simp only
      by_cases hd : day.1 = d
      · subst hd
        rw [mapGet_mapSet]
        simp only [if_pos rfl, hm]
        rcases hrest : lastVal rest day.1 with _ | v
        · simp [lastVal, hrest]
        · simp [lastVal, hrest, setField_setField_same]
      · have : mapGet (mapSet m day.1 (setField f day.2 r0)) d = mapGet m d := by
          rw [mapGet_mapSet, if_neg hd]
        rw [this]
        rcases hrest : lastVal rest d with _ | v
        · simp [lastVal, hrest, hd]
        · simp [lastVal, hrest]

/-- C4 (amended): in the refresh.ts merge the merged map holds a row for a
date exactly when some source series mentions that date, and every counter
whose source has no record for the date is zero in that row.  (The
part_013 hybrid merge does not satisfy this: see the counterexample.) -/
theorem C4_merge_union_and_zeros
    (sends : List SentDay) (bounces : List BounceDay) (spams : List SpamDay)
    (opens : List OpenDay) (clicks : List ClickDay) (d : String) :
    ((mapGet (Refresh.mergeDaily sends bounces spams opens clicks) d).isSome ↔
      (d ∈ sends.map SentDay.date ∨ d ∈ bounces.map BounceDay.date ∨
       d ∈ spams.map SpamDay.date ∨ d ∈ opens.map OpenDay.date ∨
       d ∈ clicks.map ClickDay.date)) ∧
    (∀ r, mapGet (Refresh.mergeDaily sends bounces spams opens clicks) d = some r →
      (d ∉ sends.map SentDay.date → r.sent = 0) ∧
      (d ∉ bounces.map BounceDay.date → r.bounced = 0) ∧
      (d ∉ spams.map SpamDay.date → r.spam = 0) ∧
      (d ∉ opens.map OpenDay.date → r.opened = 0) ∧
      (d ∉ clicks.map ClickDay.date → r.clicked = 0)) := by
  have hmemS : d ∈ sends.map SentDay.date ↔ (lastSent sends d).isSome := by
    rw [Option.isSome_iff_ne_none, ne_eq, lastSent_eq_none_iff, not_not]
  have hmemB : d ∈ bounces.map BounceDay.date ↔
      (lastVal (bounces.map fun b => (b.date, bounceVal b)) d).isSome := by
    have h0 : ((bounces.map fun b => (b.date, bounceVal b)).map Prod.fst) =
        bounces.map BounceDay.date := by
      simp [Function.comp]
    rw [Option.isSome_iff_ne_none, ne_eq, lastVal_eq_none_iff, h0, not_not]
  have hmemSp : d ∈ spams.map SpamDay.date ↔
      (lastVal (spams.map fun s => (s.date, s.spamComplaint)) d).isSome := by
    have h0 : ((spams.map fun s => (s.date, s.spamComplaint)).map Prod.fst) =
        spams.map SpamDay.date := by
      simp [Function.comp]
    rw [Option.isSome_iff_ne_none, ne_eq, lastVal_eq_none_iff, h0, not_not]
  have hmemO : d ∈ opens.map OpenDay.date ↔
      (lastVal (opens.map fun o => (o.date, o.opens)) d).isSome := by
    have h0 : ((opens.map fun o => (o.date, o.opens)).map Prod.fst) =
        opens.map OpenDay.date := by
      simp [Function.comp]
    rw [Option.isSome_iff_ne_none, ne_eq, lastVal_eq_none_iff, h0, not_not]
  have hmemC : d ∈ clicks.map ClickDay.date ↔
      (lastVal (clicks.map fun c => (c.date, c.clicks)) d).isSome := by
    have h0 : ((clicks.map fun c => (c.date, c.clicks)).map Prod.fst) =
        clicks.map ClickDay.date := by
      simp [Function.comp]
    rw [Option.isSome_iff_ne_none, ne_eq, lastVal_eq_none_iff, h0, not_not]
  rw [Refresh.mergeDaily, deliveredPass_get, Refresh.mergePasses, updatePass_get,
    updatePass_get, updatePass_get, updatePass_get, sentPass_get,
    hmemS, hmemB, hmemSp, hmemO, hmemC]
  rcases hcl : lastVal (clicks.map fun c => (c.date, c.clicks)) d with _ | vc <;>
    rcases hop : lastVal (opens.map fun o => (o.date, o.opens)) d with _ | vo <;>
      rcases hspv : lastVal (spams.map fun s => (s.date, s.spamComplaint)) d with _ | vsp <;>
        rcases hbv : lastVal (bounces.map fun b => (b.date, bounceVal b)) d with _ | vb <;>
          rcases hsv : lastSent sends d with _ | vs <;>
            simp [hcl, hop, hspv, hbv, hsv, setField, Refresh.deliveredStep, emptyRow, mapGet]

/-- C4 counterexample: the part_013 hybrid merge drops dates that appear
only in a non-sends source; with an empty sends series and one bounce
record the merged series is empty although 2024-01-02 is present in a
source. -/
theorem C4_counterexample_hybrid_merge :
    mergeDaily013 [] [] [] [⟨"2024-01-02", 3, 0, 0⟩] = ([] : JsMap) ∧
    "2024-01-02" ∈ ([⟨"2024-01-02", 3, 0, 0⟩] : List BounceDay013).map BounceDay013.date := by
  constructor
  · rfl
  · simp

/-- C4 witness: the spec scenario with the sends source reporting
2024-01-01 through 2024-01-03 and the bounces source only 2024-01-02; the
merged map has a row for 2024-01-01 and its bounced counter is zero
there. -/
theorem C4_merge_union_and_zeros_witness :
    (mapGet (Refresh.mergeDaily
        [⟨"2024-01-01", 5⟩, ⟨"2024-01-02", 6⟩, ⟨"2024-01-03", 7⟩]
        [⟨"2024-01-02", 2, 0, 0, 0⟩] [] [] []) "2024-01-01").isSome ∧
    DailyRow.bounced
      ((mapGet (Refresh.mergeDaily
          [⟨"2024-01-01", 5⟩, ⟨"2024-01-02", 6⟩, ⟨"2024-01-03", 7⟩]
          [⟨"2024-01-02", 2, 0, 0, 0⟩] [] [] []) "2024-01-01").getD (emptyRow "x")) = 0 := by
  have h := C4_merge_union_and_zeros
    [⟨"2024-01-01", 5⟩, ⟨"2024-01-02", 6⟩, ⟨"2024-01-03", 7⟩]
    [⟨"2024-01-02", 2, 0, 0, 0⟩] [] [] [] "2024-01-01"
  have hrow : mapGet (Refresh.mergeDaily
      [⟨"2024-01-01", 5⟩, ⟨"2024-01-02", 6⟩, ⟨"2024-01-03", 7⟩]
      [⟨"2024-01-02", 2, 0, 0, 0⟩] [] [] []) "2024-01-01" =
      some ⟨"2024-01-01", 5, 5, 0, 0, 0, 0, 0⟩ := by decide
  refine ⟨h.1.mpr (Or.inl (by decide)), ?_⟩
  rw [hrow]
  exact ((h.2 _ hrow).2.1 (by decide))

/-- A pass with an update field runs as updatePass on its extracted
series. -/
theorem applyPass_eq_updatePass (p : Pass) (fp : CtrField) (h : updFieldOf p = some fp)
    (m : JsMap) : applyPass m p = updatePass fp (passDays p) m := by
  cases p <;> simp [updFieldOf] at h <;> rw [← h] <;> rfl

/-- Two follow-up passes writing different counters commute, pointwise on
the map. -/
theorem updatePass_swap_pointwise {f g : CtrField} (hne : f ≠ g)
    (days1 days2 : List (String × ℤ)) (m : JsMap) (d : String) :
    mapGet (updatePass g days2 (updatePass f days1 m)) d =
      mapGet (updatePass f days1 (updatePass g days2 m)) d := by
  rw [updatePass_get, updatePass_get, updatePass_get, updatePass_get]
  rcases h1 : lastVal days1 d with _ | v1 <;> rcases h2 : lastVal days2 d with _ | v2 <;>
    simp [h1, h2]
  exact (setField_comm hne v1 v2 _).symm

/-- Pointwise-equal maps stay pointwise equal under any pass. -/
theorem applyPass_congr {m1 m2 : JsMap} (h : ∀ d, mapGet m1 d = mapGet m2 d)
    (p : Pass) (d : String) : mapGet (applyPass m1 p) d = mapGet (applyPass m2 p) d := by
  cases p <;> simp [applyPass, updatePass_get, sentPass_get, h d]

/-- Pointwise-equal maps stay pointwise equal under any list of passes. -/
theorem foldPasses_congr (l : List Pass) {m1 m2 : JsMap}
    (h : ∀ d, mapGet m1 d = mapGet m2 d) (d : String) :
    mapGet (l.foldl applyPass m1) d = mapGet (l.foldl applyPass m2) d := by
  induction l generalizing m1 m2 with
  | nil => exact h d
  | cons p rest ih => exact ih fun d2 => applyPass_congr h p d2

/-- C5 counterexample: the merge is not commutative in source order.  With
a sends record and a bounce record for the same date, running the passes
as [sends, bounces] keeps bounced = 5, while [bounces, sends] lets the
sends pass overwrite the row, zeroing bounced; the merged daily row
sequences differ. -/
theorem C5_counterexample_order :
    (Refresh.deliveredPass (mergeOrder
        [Pass.sendsP [⟨"2024-01-01", 10⟩], Pass.bounceP [⟨"2024-01-01", 5, 0, 0, 0⟩]])).map Prod.snd
      ≠ (Refresh.deliveredPass (mergeOrder
        [Pass.bounceP [⟨"2024-01-01", 5, 0, 0, 0⟩], Pass.sendsP [⟨"2024-01-01", 10⟩]])).map Prod.snd := by
  decide

/-- C5 (amended): the refresh.ts merge in its fixed source order is the
pass list [sends, bounces, spam, opens, clicks], and the four follow-up
passes commute with one another: swapping two adjacent passes that write
different counters leaves the merged (and delivered-clamped) map pointwise
unchanged.  Full commutativity fails only for orders that move the sends
pass after another pass, since the sends pass overwrites whole rows (see
the counterexample). -/
theorem C5_merge_order_commutation :
    (∀ (sends : List SentDay) (bounces : List BounceDay) (spams : List SpamDay)
        (opens : List OpenDay) (clicks : List ClickDay),
      mergeOrder [Pass.sendsP sends, Pass.bounceP bounces, Pass.spamP spams,
          Pass.openP opens, Pass.clickP clicks] =
        Refresh.mergePasses sends bounces spams opens clicks) ∧
    (∀ (xs ys : List Pass) (p q : Pass) (fp fq : CtrField),
      updFieldOf p = some fp → updFieldOf q = some fq → fp ≠ fq →
      ∀ d, mapGet (Refresh.deliveredPass (mergeOrder (xs ++ p :: q :: ys))) d =
        mapGet (Refresh.deliveredPass (mergeOrder (xs ++ q :: p :: ys))) d) := by
  constructor
  · intro sends bounces spams opens clicks
    rfl
  · intro xs ys p q fp fq hp hq hne d
    have hsplit1 : mergeOrder (xs ++ p :: q :: ys) =
        ys.foldl applyPass (applyPass (applyPass (mergeOrder xs) p) q) := by
      simp [mergeOrder, List.foldl_append]
    have hsplit2 : mergeOrder (xs ++ q :: p :: ys) =
        ys.foldl applyPass (applyPass (applyPass (mergeOrder xs) q) p) := by
      simp [mergeOrder, List.foldl_append]
    have key : ∀ d2, mapGet (applyPass (applyPass (mergeOrder xs) p) q) d2 =
        mapGet (applyPass (applyPass (mergeOrder xs) q) p) d2 := by
      intro d2
      rw [applyPass_eq_updatePass p fp hp, applyPass_eq_updatePass q fq hq,
        applyPass_eq_updatePass p fp hp, applyPass_eq_updatePass q fq hq]
      exact updatePass_swap_pointwise hne (passDays p) (passDays q) (mergeOrder xs) d2
    rw [deliveredPass_get, deliveredPass_get, hsplit1, hsplit2, foldPasses_congr ys key d]

/-- C5 witness: the fixed-order identity at a small concrete family, and a
concrete swap of the spam and opens passes that leaves the merged map
unchanged at the shared date. -/
theorem C5_merge_order_commutation_witness :
    (mergeOrder [Pass.sendsP [⟨"2024-01-05", 3⟩], Pass.bounceP [], Pass.spamP [⟨"2024-01-05", 9⟩],
        Pass.openP [⟨"2024-01-05", 4⟩], Pass.clickP []] =
      Refresh.mergePasses [⟨"2024-01-05", 3⟩] [] [⟨"2024-01-05", 9⟩] [⟨"2024-01-05", 4⟩] []) ∧
    mapGet (Refresh.deliveredPass (mergeOrder
        ([] ++ Pass.spamP [⟨"2024-01-05", 9⟩] :: Pass.openP [⟨"2024-01-05", 4⟩] :: []))) "2024-01-05" =
      mapGet (Refresh.deliveredPass (mergeOrder
        ([] ++ Pass.openP [⟨"2024-01-05", 4⟩] :: Pass.spamP [⟨"2024-01-05", 9⟩] :: []))) "2024-01-05" :=
  ⟨C5_merge_order_commutation.1 [⟨"2024-01-05", 3⟩] [] [⟨"2024-01-05", 9⟩] [⟨"2024-01-05", 4⟩] [],
   C5_merge_order_commutation.2 [] [] (Pass.spamP [⟨"2024-01-05", 9⟩])
     (Pass.openP [⟨"2024-01-05", 4⟩]) .spamCounter .opened rfl rfl (by decide) "2024-01-05"⟩

/-- C2 (amended): in refresh.ts the summary rates are
openRate = calculateRate(opened, delivered),
clickRate = calculateRate(clicked, delivered),
bounceRate = calculateRate(bounced, sent), and the spec scenario
(sent 1000, bounced 50, opened 300, clicked 100 on one day) run through
the whole merge pipeline yields delivered 950, openRate 31.58,
clickRate 10.53, bounceRate 5.  (The part_013 overview summary instead
divides open and click rates by sent: see the counterexample.) -/
theorem C2_summary_rates_and_scenario :
    (∀ t : Refresh.Summary,
      (Refresh.mkSummary t).openRate = Refresh.calculateRate (t.opened : ℚ) (t.delivered : ℚ) ∧
      (Refresh.mkSummary t).clickRate = Refresh.calculateRate (t.clicked : ℚ) (t.delivered : ℚ) ∧
      (Refresh.mkSummary t).bounceRate = Refresh.calculateRate (t.bounced : ℚ) (t.sent : ℚ)) ∧
    ((Refresh.summaryOfMerge [⟨"2024-01-01", 1000⟩] [⟨"2024-01-01", 50, 0, 0, 0⟩] []
        [⟨"2024-01-01", 300⟩] [⟨"2024-01-01", 100⟩] 0).sent = 1000 ∧
      (Refresh.summaryOfMerge [⟨"2024-01-01", 1000⟩] [⟨"2024-01-01", 50, 0, 0, 0⟩] []
        [⟨"2024-01-01", 300⟩] [⟨"2024-01-01", 100⟩] 0).delivered = 950 ∧
      (Refresh.summaryOfMerge [⟨"2024-01-01", 1000⟩] [⟨"2024-01-01", 50, 0, 0, 0⟩] []
        [⟨"2024-01-01", 300⟩] [⟨"2024-01-01", 100⟩] 0).openRate = 3158 / 100 ∧
      (Refresh.summaryOfMerge [⟨"2024-01-01", 1000⟩] [⟨"2024-01-01", 50, 0, 0, 0⟩] []
        [⟨"2024-01-01", 300⟩] [⟨"2024-01-01", 100⟩] 0).clickRate = 1053 / 100 ∧
      (Refresh.summaryOfMerge [⟨"2024-01-01", 1000⟩] [⟨"2024-01-01", 50, 0, 0, 0⟩] []
        [⟨"2024-01-01", 300⟩] [⟨"2024-01-01", 100⟩] 0).bounceRate = 5) := by
  constructor
  · intro t
    exact ⟨rfl, rfl, rfl⟩
  · have htot : Refresh.sumTotals
        ((Refresh.mergeDaily [⟨"2024-01-01", 1000⟩] [⟨"2024-01-01", 50, 0, 0, 0⟩] []
          [⟨"2024-01-01", 300⟩] [⟨"2024-01-01", 100⟩]).map Prod.snd) 0 =
        ⟨1000, 950, 300, 100, 50, 0, 0, 0, 0, 0⟩ := rfl
    rw [Refresh.summaryOfMerge, htot]
    refine ⟨rfl, rfl, ?_, ?_, ?_⟩
    · show Refresh.calculateRate ((300 : ℤ) : ℚ) ((950 : ℤ) : ℚ) = 3158 / 100
      norm_num [Refresh.calculateRate, jsRound]
    · show Refresh.calculateRate ((100 : ℤ) : ℚ) ((950 : ℤ) : ℚ) = 1053 / 100
      norm_num [Refresh.calculateRate, jsRound]
    · show Refresh.calculateRate ((50 : ℤ) : ℚ) ((1000 : ℤ) : ℚ) = 5
      norm_num [Refresh.calculateRate, jsRound]

/-- C2 counterexample: the part_013 overview summary reports
delivered = 950 and opened = 300 for the scenario, yet its openRate is
calculateRate(opened, sent) = 30, not calculateRate(opened, delivered)
= 31.58. -/
theorem C2_counterexample_hybrid_summary :
    (summary013 ⟨1000, 50, 300, 100, 0⟩).delivered = 950 ∧
    (summary013 ⟨1000, 50, 300, 100, 0⟩).opened = 300 ∧
    (summary013 ⟨1000, 50, 300, 100, 0⟩).openRate = 30 ∧
    Api013.calculateRate (300 : ℚ) (950 : ℚ) = 3158 / 100 ∧
    (30 : ℚ) ≠ 3158 / 100 := by
  refine ⟨rfl, rfl, ?_, ?_, by norm_num⟩
  · show Api013.calculateRate ((300 : ℤ) : ℚ) ((1000 : ℤ) : ℚ) = 30
    norm_num [Api013.calculateRate, jsRound]
  · norm_num [Api013.calculateRate, jsRound]

/-- C3 (amended): the refresh.ts delivered pass rewrites each merged row
with delivered = max(0, sent - bounced), which is never negative.
(PostmarkMultiAPI.getCompleteStats omits the clamp: see the
counterexample.) -/
theorem C3_delivered_clamped (m : JsMap) (d : String) (r0 : DailyRow)
    (h : mapGet m d = some r0) :
    mapGet (Refresh.deliveredPass m) d = some (Refresh.deliveredStep r0) ∧
    (Refresh.deliveredStep r0).delivered = max 0 (r0.sent - r0.bounced) ∧
    0 ≤ (Refresh.deliveredStep r0).delivered := by
  refine ⟨?_, rfl, le_max_left 0 _⟩
  rw [deliveredPass_get, h]
  rfl

/-- C3 witness: a day with sent 0 and bounced 5 still gets delivered 0
(not -5) from the refresh.ts clamp. -/
theorem C3_delivered_clamped_witness :
    mapGet (Refresh.deliveredPass [("2024-01-01", ⟨"2024-01-01", 0, 0, 0, 0, 5, 0, 0⟩)])
        "2024-01-01" = some (Refresh.deliveredStep ⟨"2024-01-01", 0, 0, 0, 0, 5, 0, 0⟩) ∧
    (Refresh.deliveredStep ⟨"2024-01-01", 0, 0, 0, 0, 5, 0, 0⟩).delivered =
      max 0 ((0 : ℤ) - 5) ∧
    0 ≤ (Refresh.deliveredStep ⟨"2024-01-01", 0, 0, 0, 0, 5, 0, 0⟩).delivered :=
  C3_delivered_clamped [("2024-01-01", ⟨"2024-01-01", 0, 0, 0, 0, 5, 0, 0⟩)]
    "2024-01-01" ⟨"2024-01-01", 0, 0, 0, 0, 5, 0, 0⟩ (by decide)

/-- C3 counterexample: getCompleteStats computes Delivered without the
clamp, so 0 sends with 5 hard bounces yields Delivered = -5, a negative
value. -/
theorem C3_counterexample_unclamped :
    (MultiApi.combinedStats ⟨0, 5, 0, 0, 0, 0, 0⟩).delivered = -5 ∧
    (MultiApi.combinedStats ⟨0, 5, 0, 0, 0, 0, 0⟩).delivered < 0 := by
  exact ⟨rfl, by decide⟩

/-- C6 (amended): ThriveCart conversionRate is 100 whenever there are no
abandons (including zero purchases and zero abandons, as on the empty
transaction list), and otherwise equals the unrounded percentage
purchases / (purchases + abandoned) * 100; it only agrees with the
rounding calculateRate in special cases such as abandoned = 0 with
purchases positive. -/
theorem C6_conversion_rate (ts : List ThriveCart.TCTransaction) :
    ((ThriveCart.calculateStats ts).totalAbandoned = 0 →
      (ThriveCart.calculateStats ts).conversionRate = 100) ∧
    (0 < (ThriveCart.calculateStats ts).totalAbandoned →
      (ThriveCart.calculateStats ts).conversionRate =
        (((ThriveCart.calculateStats ts).totalPurchases : ℚ) /
          (((ThriveCart.calculateStats ts).totalPurchases : ℚ) +
            ((ThriveCart.calculateStats ts).totalAbandoned : ℚ))) * 100) ∧
    (0 < (ThriveCart.calculateStats ts).totalPurchases →
      (ThriveCart.calculateStats ts).totalAbandoned = 0 →
      (ThriveCart.calculateStats ts).conversionRate =
        Refresh.calculateRate ((ThriveCart.calculateStats ts).totalPurchases : ℚ)
          (((ThriveCart.calculateStats ts).totalPurchases : ℚ) +
            ((ThriveCart.calculateStats ts).totalAbandoned : ℚ))) ∧
    (ThriveCart.calculateStats []).conversionRate = 100 := by
  refine ⟨?_, ?_, ?_, rfl⟩
  · intro hA
    simp only [ThriveCart.calculateStats] at hA ⊢
    rw [if_neg]
    omega
  · intro hA
    simp only [ThriveCart.calculateStats] at hA ⊢
    rw [if_pos hA]
  · intro hP hA
    have hPQ : (0 : ℚ) < ((ThriveCart.calculateStats ts).totalPurchases : ℚ) := by
      exact_mod_cast hP
    have hL : (ThriveCart.calculateStats ts).conversionRate = 100 := by
      simp only [ThriveCart.calculateStats] at hA ⊢
      rw [if_neg]
      omega
    rw [hL, hA, Refresh.calculateRate]
    push_cast
    rw [add_zero, if_pos hPQ, div_self (ne_of_gt hPQ)]
    norm_num [jsRound]

/-- C6 witness: one purchase and one abandon give conversionRate
1 / (1 + 1) * 100 = 50 by the unrounded formula, and the empty list gives
the documented 100. -/
theorem C6_conversion_rate_witness :
    (ThriveCart.calculateStats [⟨.purchase, "", "", "2024-01-01", false, 10⟩,
        ⟨.abandon, "", "", "2024-01-01", false, 0⟩]).conversionRate =
      (((ThriveCart.calculateStats [⟨.purchase, "", "", "2024-01-01", false, 10⟩,
          ⟨.abandon, "", "", "2024-01-01", false, 0⟩]).totalPurchases : ℚ) /
        (((ThriveCart.calculateStats [⟨.purchase, "", "", "2024-01-01", false, 10⟩,
          ⟨.abandon, "", "", "2024-01-01", false, 0⟩]).totalPurchases : ℚ) +
          ((ThriveCart.calculateStats [⟨.purchase, "", "", "2024-01-01", false, 10⟩,
            ⟨.abandon, "", "", "2024-01-01", false, 0⟩]).totalAbandoned : ℚ))) * 100 ∧
    (ThriveCart.calculateStats []).conversionRate = 100 :=
  ⟨(C6_conversion_rate [⟨.purchase, "", "", "2024-01-01", false, 10⟩,
      ⟨.abandon, "", "", "2024-01-01", false, 0⟩]).2.1 (by decide),
   (C6_conversion_rate []).2.2.2⟩

/-- C6 counterexample: one purchase and two abandons give the unrounded
conversionRate 100/3 = 33.333..., while rate(1, 1 + 2) rounds to 33.33;
the code value differs from the spec's rate() at this input. -/
theorem C6_counterexample_unrounded :
    (ThriveCart.calculateStats [⟨.purchase, "", "", "2024-01-01", false, 10⟩,
        ⟨.abandon, "", "", "2024-01-01", false, 0⟩,
        ⟨.abandon, "", "", "2024-01-01", false, 0⟩]).totalPurchases = 1 ∧
    (ThriveCart.calculateStats [⟨.purchase, "", "", "2024-01-01", false, 10⟩,
        ⟨.abandon, "", "", "2024-01-01", false, 0⟩,
        ⟨.abandon, "", "", "2024-01-01", false, 0⟩]).totalAbandoned = 2 ∧
    (ThriveCart.calculateStats [⟨.purchase, "", "", "2024-01-01", false, 10⟩,
        ⟨.abandon, "", "", "2024-01-01", false, 0⟩,
        ⟨.abandon, "", "", "2024-01-01", false, 0⟩]).conversionRate = 100 / 3 ∧
    Refresh.calculateRate 1 (1 + 2) = 3333 / 100 ∧
    (100 / 3 : ℚ) ≠ 3333 / 100 := by
  refine ⟨rfl, rfl, ?_, ?_, by norm_num⟩
  · simp [ThriveCart.calculateStats]
    norm_num
  · norm_num [Refresh.calculateRate, jsRound]

/-- C7 (amended): getStatsWithRetry propagates immediately, with no
backoff, any failure whose message contains neither the substring
Rate limit nor the character 5; it retries failures whose message contains
either of those (this includes every 5xx status but also e.g. an HTTP 405
message), sleeping 1000 * 2 ^ attempt ms, at most maxRetries = 3 times,
and after exhausting the retries it fails with the last error; a success
after two retryable failures returns that success after exactly the two
delays 1000 and 2000. -/
theorem C7_retry_behaviour :
    (∀ (op : ℕ → Except Postmark.ApiError Postmark.StatsResponse) (e : Postmark.ApiError),
      op 0 = .error e → Postmark.isRetryableErr e = false →
      Postmark.getStatsWithRetry op 0 = (.error e, [])) ∧
    (∀ (op : ℕ → Except Postmark.ApiError Postmark.StatsResponse)
        (e : ℕ → Postmark.ApiError),
      (∀ i, op i = .error (e i)) → (∀ i, Postmark.isRetryableErr (e i) = true) →
      Postmark.getStatsWithRetry op 0 = (.error (e 3), [1000, 2000, 4000])) ∧
    (∀ (op : ℕ → Except Postmark.ApiError Postmark.StatsResponse)
        (e0 e1 : Postmark.ApiError) (v : Postmark.StatsResponse),
      op 0 = .error e0 → op 1 = .error e1 → op 2 = .ok v →
      Postmark.isRetryableErr e0 = true → Postmark.isRetryableErr e1 = true →
      Postmark.getStatsWithRetry op 0 = (.ok v, [1000, 2000])) := by
  refine ⟨?_, ?_, ?_⟩
  · intro op e h0 hr
    simp [Postmark.getStatsWithRetry, Postmark.maxRetries, Postmark.getStatsRetryGo, h0, hr]
  · intro op e h hr
    simp [Postmark.getStatsWithRetry, Postmark.maxRetries, Postmark.getStatsRetryGo,
      h 0, h 1, h 2, h 3, hr 0, hr 1, hr 2, hr 3, Postmark.baseBackoffMs]
  · intro op e0 e1 v h0 h1 h2 hr0 hr1
    simp [Postmark.getStatsWithRetry, Postmark.maxRetries, Postmark.getStatsRetryGo,
      h0, h1, h2, hr0, hr1, Postmark.baseBackoffMs]

/-- C7 witness: a failure whose message has no Rate limit and no 5 is
propagated with no delays, and two rate-limited failures followed by a
success return the success after delays 1000 and 2000. -/
theorem C7_retry_behaviour_witness :
    Postmark.getStatsWithRetry
        (fun _ => .error ⟨"Postmark API error: Invalid JSON (300)"⟩) 0 =
      (.error ⟨"Postmark API error: Invalid JSON (300)"⟩, []) ∧
    Postmark.getStatsWithRetry
        (fun i => if i = 0 then .error ⟨"Rate limited: too many requests"⟩
          else if i = 1 then .error ⟨"Rate limited: too many requests"⟩
          else .ok ⟨[]⟩) 0 =
      (.ok ⟨[]⟩, [1000, 2000]) :=
  ⟨C7_retry_behaviour.1 (fun _ => .error ⟨"Postmark API error: Invalid JSON (300)"⟩)
      ⟨"Postmark API error: Invalid JSON (300)"⟩ rfl (by decide),
   C7_retry_behaviour.2.2
      (fun i => if i = 0 then .error ⟨"Rate limited: too many requests"⟩
        else if i = 1 then .error ⟨"Rate limited: too many requests"⟩
        else .ok ⟨[]⟩)
      ⟨"Rate limited: too many requests"⟩ ⟨"Rate limited: too many requests"⟩ ⟨[]⟩
      rfl rfl rfl (by decide) (by decide)⟩

/-- C7 counterexample: an HTTP 405 failure is neither a 429 nor a 5xx, yet
its message contains the character 5, so the wrapper retries it three
times (delays 1000, 2000, 4000) instead of propagating immediately. -/
theorem C7_counterexample_405_retried :
    Postmark.getStatsWithRetry
        (fun _ => .error ⟨"Postmark API error: 405 Method Not Allowed"⟩) 0 =
      (.error ⟨"Postmark API error: 405 Method Not Allowed"⟩, [1000, 2000, 4000]) ∧
    Postmark.includesStr "Postmark API error: 405 Method Not Allowed" "Rate limit" = false :=
  ⟨rfl, by decide⟩

/-- C8 (amended): when the upstream fetch fails, the ThriveCart and
Facebook services serve the cached value when one exists (however stale)
and an all-zero empty stats object when none does; the Prisma-cached stats
handler serves the cached rows on a non-rate-limit failure with a
non-empty cache and surfaces a 500 error on an empty cache, but a failure
whose message contains Rate limit surfaces a 429 error even when cached
rows exist (see the counterexample). -/
theorem C8_fetch_failure_fallback :
    (∀ (force : Bool) (now : ℤ) (data : ThriveCart.TCStatsCore) (ts : ℤ),
      ThriveCart.fetchDataResult force now (some (data, ts)) (.error ()) = data) ∧
    (∀ (force : Bool) (now : ℤ),
      ThriveCart.fetchDataResult force now none (.error ()) = ThriveCart.getEmptyStatsCore) ∧
    (∀ (force : Bool) (now : ℤ) (data : FacebookAds.FBStatsCore) (ts : ℤ),
      FacebookAds.fetchDataResult force now (some (data, ts)) (.error ()) = data) ∧
    (∀ (force : Bool) (now : ℤ),
      FacebookAds.fetchDataResult force now none (.error ()) = FacebookAds.getEmptyStatsCore) ∧
    (∀ (n : ℕ) (msg : String), Postmark.includesStr msg "Rate limit" = false → 0 < n →
      CachedHandler.onFetchFailure n msg = .serveCached) ∧
    (∀ (msg : String), Postmark.includesStr msg "Rate limit" = false →
      CachedHandler.onFetchFailure 0 msg = .error500) ∧
    (∀ (n : ℕ) (msg : String), Postmark.includesStr msg "Rate limit" = true →
      CachedHandler.onFetchFailure n msg = .rateLimited429) := by
  refine ⟨?_, ?_, ?_, ?_, ?_, ?_, ?_⟩
  · intro force now data ts
    simp only [ThriveCart.fetchDataResult]
    split_ifs <;> rfl
  · intro force now
    rfl
  · intro force now data ts
    simp only [FacebookAds.fetchDataResult]
    split_ifs <;> rfl
  · intro force now
    rfl
  · intro n msg hmsg hn
    simp [CachedHandler.onFetchFailure, hmsg, Nat.pos_iff_ne_zero.mp hn]
  · intro msg hmsg
    simp [CachedHandler.onFetchFailure, hmsg]
  · intro n msg hmsg
    simp [CachedHandler.onFetchFailure, hmsg]

/-- C8 witness: a stale ThriveCart cache entry is served after a failed
re-fetch, the empty stats object is returned with no cache, and the
cached handler serves its cache on a non-rate-limit failure. -/
theorem C8_fetch_failure_fallback_witness :
    ThriveCart.fetchDataResult false 99999999 (some (ThriveCart.getEmptyStatsCore, 0))
        (.error ()) = ThriveCart.getEmptyStatsCore ∧
    FacebookAds.fetchDataResult false 0 none (.error ()) = FacebookAds.getEmptyStatsCore ∧
    CachedHandler.onFetchFailure 3 "Postmark API error: server exploded (500)" = .serveCached :=
  ⟨C8_fetch_failure_fallback.1 false 99999999 ThriveCart.getEmptyStatsCore 0,
   C8_fetch_failure_fallback.2.2.2.1 false 0,
   C8_fetch_failure_fallback.2.2.2.2.1 3 "Postmark API error: server exploded (500)"
     (by decide) (by decide)⟩

/-- C8 counterexample: with three cached rows available, a fetch failure
whose message contains Rate limit makes the cached handler surface a 429
error instead of serving the cached value. -/
theorem C8_counterexample_rate_limit_429 :
    CachedHandler.onFetchFailure 3 "Rate limited, wait 5 seconds" =
      CachedHandler.FallbackOutcome.rateLimited429 ∧
    CachedHandler.onFetchFailure 3 "Rate limited, wait 5 seconds" ≠
      CachedHandler.FallbackOutcome.serveCached := by
  exact ⟨by decide, by decide⟩

/-- C9: the dashboard ROAS is revenue / spend whenever spend is positive
and exactly 0 whenever spend is 0 (a rational value, never Infinity or
NaN). -/
theorem C9_roas_zero_spend (fb : Option FacebookAds.FBStatsCore)
    (tc : Option ThriveCart.TCStatsCore) :
    (0 < Dashboard.spendOf fb →
      Dashboard.unifiedRoas fb tc = Dashboard.revenueOf tc / Dashboard.spendOf fb) ∧
    (Dashboard.spendOf fb = 0 → Dashboard.unifiedRoas fb tc = 0) := by
  constructor
  · intro h
    simp [Dashboard.unifiedRoas, h]
  · intro h
    simp [Dashboard.unifiedRoas, h]

/-- C9 witness: spend 0 with revenue 500 yields ROAS 0. -/
theorem C9_roas_zero_spend_witness :
    Dashboard.unifiedRoas (some FacebookAds.getEmptyStatsCore)
      (some { ThriveCart.getEmptyStatsCore with totalRevenue := 500 }) = 0 :=
  (C9_roas_zero_spend (some FacebookAds.getEmptyStatsCore)
    (some { ThriveCart.getEmptyStatsCore with totalRevenue := 500 })).2 rfl

/-- C10: any event string whose lowercased, trimmed form is none of
purchase, upsellaccept, abandon, refund parses to purchase, and such a
transaction is counted in totalPurchases downstream. -/
theorem C10_parse_event_fallback (s : String)
    (h1 : ThriveCart.strTrim (ThriveCart.strLower s) ≠ "purchase")
    (h2 : ThriveCart.strTrim (ThriveCart.strLower s) ≠ "upsellaccept")
    (h3 : ThriveCart.strTrim (ThriveCart.strLower s) ≠ "abandon")
    (h4 : ThriveCart.strTrim (ThriveCart.strLower s) ≠ "refund") :
    ThriveCart.parseEvent s = .purchase ∧
    (ThriveCart.calculateStats
        [⟨ThriveCart.parseEvent s, "item", "", "2024-01-01", false, 10⟩]).totalPurchases = 1 := by
  have hp : ThriveCart.parseEvent s = .purchase := by
    unfold ThriveCart.parseEvent
    simp [h1, h2, h3, h4]
  refine ⟨hp, ?_⟩
  rw [hp]
  rfl

/-- C10 witness: the unknown event string Checkout_Completed parses to
purchase and is counted as a purchase by calculateStats. -/
theorem C10_parse_event_fallback_witness :
    ThriveCart.parseEvent "Checkout_Completed" = .purchase ∧
    (ThriveCart.calculateStats
        [⟨ThriveCart.parseEvent "Checkout_Completed", "item", "", "2024-01-01",
          false, 10⟩]).totalPurchases = 1 :=
  C10_parse_event_fallback "Checkout_Completed" (by decide) (by decide) (by decide) (by decide)

/-- C1: both calculateRate implementations return exactly 0 whenever the
denominator is 0 (and, being rational-valued, never divide by zero or
produce NaN or Infinity). -/
theorem C1_rate_zero_denominator (n d : ℚ) (h : d = 0) :
    Refresh.calculateRate n d = 0 ∧ Api013.calculateRate n d = 0 := by
  subst h
  constructor
  · simp [Refresh.calculateRate]
  · simp [Api013.calculateRate]

/-- C1 witness: calculateRate 300 0 evaluates to 0 in both handlers. -/
theorem C1_rate_zero_denominator_witness :
    Refresh.calculateRate 300 0 = 0 ∧ Api013.calculateRate 300 0 = 0 :=
  C1_rate_zero_denominator 300 0 rfl
